import Mathlib

/-
Verification of the micro:bit NovaQuest controller application.

The repository contains two textual variants of the BluetoothService class
in src/services/bluetoothService.ts (referred to below as variant A, lines
1-105, and variant B, lines 107-220), the App component in src/App.tsx, a
control pad in src/unnamed/part_000, and two polling variants of the
GestureCamera component in src/unnamed/part_001 besides the live-session
variant in src/components/GestureCamera.tsx.

Strings are modelled with the Lean String type; operations that the Lean
kernel cannot reduce (trim, case mapping, UTF-8 encoding) are expressed
over List Char with the standard character-level primitives, matching the
ASCII behaviour of the JavaScript operations used by the code.
-/

/-- Command tokens of the application, from src/types.ts line 2. -/
def commandTokens : List String :=
  ["FORWARD", "BACKWARD", "LEFT", "RIGHT", "STOP", "ON", "OFF"]

/-- Wire mapping of BluetoothService variant A,
src/services/bluetoothService.ts lines 81-92: a switch over the command
token returning the lowercase wire word, with ON and OFF both mapped to
stop, and null for anything else. -/
def mapCommandToStringA (cmd : String) : Option String :=
  if cmd = "FORWARD" then some "up"
  else if cmd = "BACKWARD" then some "down"
  else if cmd = "LEFT" then some "left"
  else if cmd = "RIGHT" then some "right"
  else if cmd = "STOP" then some "stop"
  else if cmd = "ON" then some "stop"
  else if cmd = "OFF" then some "stop"
  else none

/-- Wire mapping of BluetoothService variant B,
src/services/bluetoothService.ts lines 195-206: identical to variant A on
the directional tokens and STOP, but ON maps to on and OFF maps to off. -/
def mapCommandToStringB (cmd : String) : Option String :=
  if cmd = "FORWARD" then some "up"
  else if cmd = "BACKWARD" then some "down"
  else if cmd = "LEFT" then some "left"
  else if cmd = "RIGHT" then some "right"
  else if cmd = "STOP" then some "stop"
  else if cmd = "ON" then some "on"
  else if cmd = "OFF" then some "off"
  else none

/-- Cached connection state of the BluetoothService: the device field
(some b records a device whose gatt.connected flag is b) and the cached
UART characteristic, both null when absent, as in
src/services/bluetoothService.ts lines 10-11 and 118-119. -/
structure ServiceState where
  device : Option Bool
  characteristic : Option Unit
deriving DecidableEq

/-- UTF-8 encoding of a string, character by character, as performed by
TextEncoder.encode in sendCommand. -/
def utf8Encode (s : String) : List UInt8 :=
  s.data.flatMap String.utf8EncodeChar

/-- sendCommand of the BluetoothService (variant A lines 67-79, variant B
lines 175-193, which differ only in logging): if no characteristic is
cached, return immediately; otherwise map the token through the wire
table and, when mapped, write the UTF-8 encoding of the word followed by
one newline. The result pairs the (unchanged) service state with the list
of writes performed. -/
def sendCommand (map : String → Option String) (st : ServiceState)
    (cmd : String) : ServiceState × List (List UInt8) :=
  match st.characteristic with
  | none => (st, [])
  | some _ =>
    match map cmd with
    | some mapped => (st, [utf8Encode (mapped ++ "\n")])
    | none => (st, [])

/-- Handler registered for the gattserverdisconnected event
(src/services/bluetoothService.ts lines 44-48 and 161-165): it nulls both
the device and the characteristic. -/
def gattDisconnectedHandler (_st : ServiceState) : ServiceState :=
  ⟨none, none⟩

/-- Test device?.gatt?.connected used by disconnect and isConnected. -/
def deviceConnected (st : ServiceState) : Bool :=
  st.device = some true

/-- disconnect (lines 94-98 and 208-213): when the device is connected it
calls gatt.disconnect(), upon which the browser fires the
gattserverdisconnected event and the registered handler clears the cached
state; otherwise nothing happens. -/
def disconnect (st : ServiceState) : ServiceState :=
  if deviceConnected st then gattDisconnectedHandler st else st

/-- isConnected getter (lines 100-102 and 215-217). -/
def isConnected (st : ServiceState) : Bool :=
  deviceConnected st && st.characteristic.isSome

/-- Log entry type of BluetoothService variant B,
src/services/bluetoothService.ts lines 111-115. -/
inductive LogType where
  | info
  | error
  | tx
deriving DecidableEq

/-- BluetoothLog record, src/services/bluetoothService.ts lines 111-115. -/
structure BluetoothLog where
  time : String
  msg : String
  type : LogType

/-- Log listener installed by App (src/App.tsx lines 21-25): the new entry
is prepended and the list is truncated to its first 20 entries. -/
def appendLog (log : BluetoothLog) (prev : List BluetoothLog) :
    List BluetoothLog :=
  (log :: prev).take 20

/-- UI flags of the App component captured by the handleCommand closure
(src/App.tsx lines 9-16): the connected flag of btState, the powerOn and
gestureActive switches and the last command string. -/
structure AppFlags where
  connected : Bool
  powerOn : Bool
  gestureActive : Bool
  lastCmd : String

/-- handleCommand of App (src/App.tsx lines 53-65). On ON it sets powerOn;
on OFF it clears powerOn and gestureActive and calls sendCommand with
STOP unconditionally; in all cases it records the last command and then,
when connected and either power was already on or the token is ON or OFF,
calls sendCommand with the token itself. The powerOn read in the guard is
the value captured by the closure, before any update in this invocation.
The result pairs the updated flags with the ordered list of sendCommand
invocations. -/
def handleCommand (app : AppFlags) (cmd : String) : AppFlags × List String :=
  let offCalls := if cmd = "OFF" then ["STOP"] else []
  let mainCalls :=
    if app.connected && (app.powerOn || cmd == "ON" || cmd == "OFF")
    then [cmd] else []
  ({ connected := app.connected
     powerOn := if cmd = "ON" then true
                else if cmd = "OFF" then false else app.powerOn
     gestureActive := if cmd = "OFF" then false else app.gestureActive
     lastCmd := cmd },
   offCalls ++ mainCalls)

/-- Gesture switch of App (src/App.tsx line 115): it flips gestureActive
and calls sendCommand nowhere. -/
def toggleGesture (app : AppFlags) : AppFlags × List String :=
  ({ app with gestureActive := !app.gestureActive }, [])

/-- Bluetooth-level writes produced by a list of sendCommand invocations
against a given service state (sendCommand never changes the state). -/
def transmissions (map : String → Option String) (st : ServiceState)
    (calls : List String) : List (List UInt8) :=
  calls.flatMap (fun c => (sendCommand map st c).2)

theorem transmissions_nil_of_no_characteristic
    (map : String → Option String) (st : ServiceState)
    (h : st.characteristic = none) (calls : List String) :
    transmissions map st calls = [] := by
  induction calls with
  | nil => rfl
  | cons c cs ih =>
    simp only [transmissions, List.flatMap_cons] at *
    rw [sendCommand, h]
    simpa using ih

/-- C1: every defined command token is mapped by both mapCommandToString
variants to its fixed lowercase wire word (up, down, left, right, stop,
and stop resp. on/off for the power tokens), each token to exactly one
word, and every string outside the seven defined tokens is mapped to
null by both variants. -/
theorem wire_mapping_fixed_table :
    (mapCommandToStringA "FORWARD" = some "up" ∧
     mapCommandToStringA "BACKWARD" = some "down" ∧
     mapCommandToStringA "LEFT" = some "left" ∧
     mapCommandToStringA "RIGHT" = some "right" ∧
     mapCommandToStringA "STOP" = some "stop" ∧
     mapCommandToStringA "ON" = some "stop" ∧
     mapCommandToStringA "OFF" = some "stop") ∧
    (mapCommandToStringB "FORWARD" = some "up" ∧
     mapCommandToStringB "BACKWARD" = some "down" ∧
     mapCommandToStringB "LEFT" = some "left" ∧
     mapCommandToStringB "RIGHT" = some "right" ∧
     mapCommandToStringB "STOP" = some "stop" ∧
     mapCommandToStringB "ON" = some "on" ∧
     mapCommandToStringB "OFF" = some "off") ∧
    (∀ s : String, s ∉ commandTokens →
      mapCommandToStringA s = none ∧ mapCommandToStringB s = none) := by
  refine ⟨by decide, by decide, ?_⟩
  intro s hs
  simp only [commandTokens, List.mem_cons, List.not_mem_nil, or_false,
    not_or] at hs
  obtain ⟨h1, h2, h3, h4, h5, h6, h7⟩ := hs
  constructor <;>
    simp [mapCommandToStringA, mapCommandToStringB, h1, h2, h3, h4, h5, h6, h7]

/-- Witness for C1 at the undefined token JUMP. -/
theorem wire_mapping_fixed_table_witness :
    mapCommandToStringA "JUMP" = none ∧ mapCommandToStringB "JUMP" = none :=
  wire_mapping_fixed_table.2.2 "JUMP" (by decide)

/-- C8: the two mapCommandToString variants agree extensionally on every
directional token and STOP and on every string outside the seven defined
tokens. -/
theorem map_variants_agree :
    (∀ s ∈ (["FORWARD", "BACKWARD", "LEFT", "RIGHT", "STOP"] : List String),
      mapCommandToStringA s = mapCommandToStringB s) ∧
    (∀ s : String, s ∉ commandTokens →
      mapCommandToStringA s = mapCommandToStringB s) := by
  refine ⟨by decide, ?_⟩
  intro s hs
  obtain ⟨ha, hb⟩ := wire_mapping_fixed_table.2.2 s hs
  rw [ha, hb]

/-- Witness for C8 at the token STOP and the undefined token JUMP. -/
theorem map_variants_agree_witness :
    mapCommandToStringA "STOP" = mapCommandToStringB "STOP" ∧
    mapCommandToStringA "JUMP" = mapCommandToStringB "JUMP" :=
  ⟨map_variants_agree.1 "STOP" (by decide),
   map_variants_agree.2 "JUMP" (by decide)⟩

/-- C9: handleCommand with OFF clears both the power flag and the
gesture-active flag and passes STOP to sendCommand unconditionally, before
the OFF token itself is sent exactly when connected; handleCommand with ON
sets the power flag. -/
theorem handleCommand_power_semantics (app : AppFlags) :
    (handleCommand app "OFF").1.powerOn = false ∧
    (handleCommand app "OFF").1.gestureActive = false ∧
    (handleCommand app "OFF").2 =
      "STOP" :: (if app.connected then ["OFF"] else []) ∧
    (handleCommand app "ON").1.powerOn = true := by
  refine ⟨rfl, rfl, ?_, rfl⟩
  cases h : app.connected <;> simp [handleCommand, h]

/-- C10: the debug-log list of App always holds at most 20 entries after a
log event, the new entry first: the update prepends and truncates to the
first 20 entries, so the bound holds for every previous list. -/
theorem debug_log_bounded (log : BluetoothLog) (prev : List BluetoothLog) :
    (appendLog log prev).length ≤ 20 ∧
    (appendLog log prev).head? = some log := by
  constructor
  · simp [appendLog]
  · rfl

/-- C2: sendCommand looks the token up in the wire table; when mapped and
a characteristic is cached it writes exactly the UTF-8 encoding of the
mapped word followed by one newline, and when the token is unmapped or no
characteristic is cached it performs no write, for either wire-table
variant. -/
theorem sendCommand_write_exact (st : ServiceState) (cmd : String)
    (map : String → Option String) :
    (∀ w, st.characteristic.isSome → map cmd = some w →
      sendCommand map st cmd = (st, [utf8Encode (w ++ "\n")])) ∧
    (map cmd = none → sendCommand map st cmd = (st, [])) ∧
    (st.characteristic = none → sendCommand map st cmd = (st, [])) := by
  refine ⟨?_, ?_, ?_⟩
  · intro w hch hmap
    cases h : st.characteristic with
    | none => rw [h] at hch; simp at hch
    | some u => rw [sendCommand, h, hmap]
  · intro hmap
    cases h : st.characteristic with
    | none => rw [sendCommand, h]
    | some u => rw [sendCommand, h, hmap]
  · intro h
    rw [sendCommand, h]

/-- Witness for C2: with a cached characteristic, FORWARD is written as
the UTF-8 bytes of the word up followed by one newline. -/
theorem sendCommand_write_exact_witness :
    sendCommand mapCommandToStringA ⟨some true, some ()⟩ "FORWARD" =
      (⟨some true, some ()⟩, [utf8Encode ("up" ++ "\n")]) :=
  (sendCommand_write_exact ⟨some true, some ()⟩ "FORWARD"
    mapCommandToStringA).1 "up" (by decide) (by decide)

/-- C4: after a disconnection of a connected device the cached device and
characteristic are both null, and in every state whose cached
characteristic is cleared each sendCommand performs no write and leaves
the service state unchanged. -/
theorem disconnect_clears_state_sends_noop (st : ServiceState)
    (cmd : String) (map : String → Option String) :
    (deviceConnected st = true →
      (disconnect st).device = none ∧ (disconnect st).characteristic = none) ∧
    (st.characteristic = none → sendCommand map st cmd = (st, [])) := by
  constructor
  · intro h
    rw [disconnect, h]
    exact ⟨rfl, rfl⟩
  · intro h
    rw [sendCommand, h]

/-- Witness for C4 at a connected state and at the cleared state. -/
theorem disconnect_clears_state_sends_noop_witness :
    ((disconnect ⟨some true, some ()⟩).device = none ∧
     (disconnect ⟨some true, some ()⟩).characteristic = none) ∧
    sendCommand mapCommandToStringA ⟨none, none⟩ "STOP" =
      (⟨none, none⟩, []) :=
  ⟨(disconnect_clears_state_sends_noop ⟨some true, some ()⟩ "STOP"
      mapCommandToStringA).1 (by decide),
   (disconnect_clears_state_sends_noop ⟨none, none⟩ "STOP"
      mapCommandToStringA).2 rfl⟩

/-- C5: while the service is disconnected (no cached characteristic),
toggling the power switch (handleCommand with ON or OFF) or toggling the
gesture switch produces no write to the Bluetooth characteristic. -/
theorem disconnected_toggles_no_transmission (app : AppFlags)
    (st : ServiceState) (map : String → Option String) (cmd : String)
    (h : st.characteristic = none) :
    (cmd = "ON" ∨ cmd = "OFF" →
      transmissions map st (handleCommand app cmd).2 = []) ∧
    transmissions map st (toggleGesture app).2 = [] :=
  ⟨fun _ => transmissions_nil_of_no_characteristic map st h _,
   transmissions_nil_of_no_characteristic map st h _⟩

/-- Witness for C5: pressing the power switch ON while fully disconnected
transmits nothing. -/
theorem disconnected_toggles_no_transmission_witness :
    transmissions mapCommandToStringB ⟨none, none⟩
      (handleCommand ⟨false, false, false, "STOP"⟩ "ON").2 = [] :=
  (disconnected_toggles_no_transmission ⟨false, false, false, "STOP"⟩
    ⟨none, none⟩ mapCommandToStringB "ON" rfl).1 (Or.inl rfl)

/-- Gesture vocabulary used by every GestureCamera variant
(src/unnamed/part_001 lines 89 and 242, src/components/GestureCamera.tsx
line 67). -/
def gestureVocabulary : List String :=
  ["FORWARD", "BACKWARD", "LEFT", "RIGHT", "STOP"]

/-- Whitespace trimming of both ends of a character list, modelling the
JavaScript trim() call on the model response text. -/
def trimChars (l : List Char) : List Char :=
  ((l.dropWhile Char.isWhitespace).reverse.dropWhile Char.isWhitespace).reverse

/-- ASCII upper-casing of a character list, modelling toUpperCase(). -/
def toUpperChars (l : List Char) : List Char :=
  l.map Char.toUpper

/-- Normalisation applied to every model response before matching:
trim() followed by toUpperCase(). -/
def normalizeLabel (raw : String) : List Char :=
  toUpperChars (trimChars raw.data)

/-- Substring containment on character lists, modelling the JavaScript
String.includes call of src/unnamed/part_001 lines 89-90. -/
def containsSub (needle : List Char) : List Char → Bool
  | [] => needle.isEmpty
  | c :: rest => needle.isPrefixOf (c :: rest) || containsSub needle rest

/-- Exact matcher of src/unnamed/part_001 lines 241-247 and of
src/components/GestureCamera.tsx lines 64-74: the trimmed upper-cased
response is forwarded exactly when it is one of the five vocabulary
words, otherwise nothing is forwarded. -/
def matchGestureExact (raw : String) : Option String :=
  let text := normalizeLabel raw
  if gestureVocabulary.any (fun c => c.data == text) then some (String.mk text)
  else none

/-- Substring matcher of src/unnamed/part_001 lines 87-95: when some
vocabulary word occurs inside the trimmed upper-cased response, the first
such word in vocabulary order is forwarded; otherwise nothing is
forwarded. -/
def matchGestureSub (raw : String) : Option String :=
  let result := normalizeLabel raw
  if gestureVocabulary.any (fun c => containsSub c.data result)
  then gestureVocabulary.find? (fun c => containsSub c.data result)
  else none

/-- Counterexample to C6 as stated: the GestureCamera variant of
src/unnamed/part_001 lines 87-95 forwards FORWARD for the label XFORWARD,
a text outside the fixed vocabulary, because it matches by substring. -/
theorem substring_match_forwards_out_of_vocabulary :
    matchGestureSub "XFORWARD" = some "FORWARD" ∧
    "XFORWARD" ∉ gestureVocabulary := by
  decide

/-- C6 amended: the two exact-matching GestureCamera variants forward a
vocabulary word exactly when the trimmed upper-cased response equals it
and forward nothing otherwise; the substring variant of
src/unnamed/part_001 lines 87-95 forwards only vocabulary words but
matches them as substrings of the normalised response, and forwards
nothing exactly when no vocabulary word occurs inside it. -/
theorem gesture_match_vocabulary (raw : String) :
    (∀ t, matchGestureExact raw = some t ↔
      (t ∈ gestureVocabulary ∧ normalizeLabel raw = t.data)) ∧
    (∀ t, matchGestureSub raw = some t →
      t ∈ gestureVocabulary ∧ containsSub t.data (normalizeLabel raw) = true) ∧
    (matchGestureSub raw = none ↔
      ∀ c ∈ gestureVocabulary, containsSub c.data (normalizeLabel raw) = false) := by
  refine ⟨?_, ?_, ?_⟩
  · intro t
    rw [matchGestureExact]
    by_cases h : gestureVocabulary.any (fun c => c.data == normalizeLabel raw)
    · rw [if_pos h]
      obtain ⟨c, hc, hbeq⟩ := List.any_eq_true.mp h
      have hdata : c.data = normalizeLabel raw := by
        exact beq_iff_eq.mp hbeq
      constructor
      · intro ht
        have ht2 : t = String.mk (normalizeLabel raw) := by
          exact (Option.some.injEq _ _).mp ht.symm
        subst ht2
        refine ⟨?_, rfl⟩
        have : c = String.mk (normalizeLabel raw) := congrArg String.mk hdata
        rwa [this] at hc
      · intro ⟨_, hdt⟩
        cases t
        simp [hdt]
    · rw [if_neg h]
      constructor
      · intro ht
        exact absurd ht (by simp)
      · intro ⟨hmem, hdt⟩
        exfalso
        apply h
        refine List.any_eq_true.mpr ⟨t, hmem, ?_⟩
        exact beq_iff_eq.mpr hdt.symm
  · intro t ht
    rw [matchGestureSub] at ht
    by_cases h : gestureVocabulary.any
        (fun c => containsSub c.data (normalizeLabel raw))
    · rw [if_pos h] at ht
      exact ⟨List.mem_of_find?_eq_some ht, by simpa using List.find?_some ht⟩
    · rw [if_neg h] at ht
      exact absurd ht (by simp)
  · rw [matchGestureSub]
    by_cases h : gestureVocabulary.any
        (fun c => containsSub c.data (normalizeLabel raw))
    · rw [if_pos h]
      obtain ⟨c, hc, hp⟩ := List.any_eq_true.mp h
      constructor
      · intro hfind
        have : (gestureVocabulary.find?
            (fun c => containsSub c.data (normalizeLabel raw))).isSome := by
          exact List.find?_isSome.mpr ⟨c, hc, hp⟩
        rw [hfind] at this
        simp at this
      · intro hall
        exact absurd (hall c hc) (by simp [hp])
    · rw [if_neg h]
      simp only [true_iff]
      intro c hc
      by_contra hcc
      apply h
      refine List.any_eq_true.mpr ⟨c, hc, ?_⟩
      simpa using hcc

/-- Witness for the amended C6: the response string left is forwarded as
LEFT by the substring matcher and LEFT is in the vocabulary. -/
theorem gesture_match_vocabulary_witness :
    "LEFT" ∈ gestureVocabulary ∧
    containsSub "LEFT".data (normalizeLabel " left ") = true :=
  (gesture_match_vocabulary " left ").2.1 "LEFT" (by decide)

/-- Phase of the startAnalysisLoop coroutine of src/unnamed/part_001
lines 58-105 and 214-256: either no invocation is suspended, or one
invocation is suspended at the await of the generateContent call. -/
inductive LoopPhase where
  | idle
  | awaitingResponse
deriving DecidableEq

/-- State of the gesture analysis loop: whether a timeout callback is
pending, the isProcessing flag, the activeRef flag, the loop phase, and a
counter of inference requests currently in flight. -/
structure LoopState where
  phase : LoopPhase
  timerArmed : Bool
  processing : Bool
  active : Bool
  inFlight : Nat
deriving DecidableEq

/-- Events driving the gesture analysis loop: the pending invocation of
startAnalysisLoop runs (with the video and canvas refs ready or not), the
awaited inference call completes (successfully or not), or the activeRef
flag is updated by the enclosing component. -/
inductive LoopEvent where
  | fire (mediaReady : Bool)
  | complete (ok : Bool)
  | setActive (b : Bool)
deriving DecidableEq

/-- One step of the gesture analysis loop, from startAnalysisLoop of
src/unnamed/part_001 lines 58-105 (the 214-256 variant is identical up to
the timeout constant). A fire event consumes the pending invocation; when
activeRef is false the function returns without re-arming; when the refs
are ready and the isProcessing flag is clear it sets the flag and issues
one inference request, suspending at the await; otherwise it skips the
body and re-arms the timeout at once. A completion event (the catch block
makes failure and success behave alike) decrements the in-flight count,
clears the flag in the finally block, and only then re-arms the timeout
for the next attempt after the fixed delay. -/
def loopStep (s : LoopState) : LoopEvent → Option LoopState
  | LoopEvent.fire mediaReady =>
    if s.timerArmed then
      if !s.active then some { s with timerArmed := false }
      else if mediaReady && !s.processing then
        some { s with timerArmed := false, processing := true,
                      inFlight := s.inFlight + 1,
                      phase := LoopPhase.awaitingResponse }
      else some { s with timerArmed := true }
    else none
  | LoopEvent.complete _ok =>
    if s.phase = LoopPhase.awaitingResponse then
      some { s with inFlight := s.inFlight - 1, processing := false,
                    phase := LoopPhase.idle, timerArmed := true }
    else none
  | LoopEvent.setActive b => some { s with active := b }

/-- Initial loop state: setupCamera invokes startAnalysisLoop once
(src/unnamed/part_001 lines 49 and 208), modelled as one pending
invocation with the flag clear and no request in flight. -/
def initLoopState (active : Bool) : LoopState :=
  { phase := LoopPhase.idle, timerArmed := true, processing := false,
    active := active, inFlight := 0 }

/-- Executes a sequence of loop events, failing on an event that is not
enabled in the current state. -/
def runLoop : LoopState → List LoopEvent → Option LoopState
  | s, [] => some s
  | s, e :: es =>
    match loopStep s e with
    | some s2 => runLoop s2 es
    | none => none

/-- Invariant of the gesture analysis loop: while idle no request is in
flight, and while an invocation awaits its response exactly one request
is in flight, the isProcessing flag is set, and no timeout is armed. -/
def LoopInv (s : LoopState) : Prop :=
  (s.phase = LoopPhase.idle → s.inFlight = 0) ∧
  (s.phase = LoopPhase.awaitingResponse →
    s.inFlight = 1 ∧ s.processing = true ∧ s.timerArmed = false)

theorem loopStep_preserves_inv {s s2 : LoopState} {e : LoopEvent}
    (hInv : LoopInv s) (h : loopStep s e = some s2) : LoopInv s2 := by
  obtain ⟨hIdle, hAwait⟩ := hInv
  rcases s with ⟨ph, ta, pr, ac, n⟩
  cases e with
  | fire m =>
    cases ph <;> cases ta <;> cases ac <;> cases pr <;> cases m <;>
      simp_all [loopStep, LoopInv] <;>
      (try subst h) <;> simp_all [LoopInv]
  | complete ok =>
    cases ph <;> simp_all [loopStep, LoopInv] <;>
      (try subst h) <;> simp_all [LoopInv]
  | setActive b =>
    cases ph <;> simp_all [loopStep, LoopInv] <;>
      (try subst h) <;> simp_all [LoopInv]

theorem runLoop_preserves_inv {s s2 : LoopState} {evs : List LoopEvent}
    (hInv : LoopInv s) (h : runLoop s evs = some s2) : LoopInv s2 := by
  induction evs generalizing s with
  | nil => simp [runLoop] at h; rwa [← h]
  | cons e es ih =>
    rw [runLoop] at h
    cases hstep : loopStep s e with
    | none => rw [hstep] at h; simp at h
    | some s1 =>
      rw [hstep] at h
      exact ih (loopStep_preserves_inv hInv hstep) h

/-- C3 amended: in the polling GestureCamera variants of
src/unnamed/part_001, along every event sequence of the analysis loop at
most one inference request is ever in flight; while a request is
outstanding the isProcessing flag is set and no timeout is armed, so the
next attempt is scheduled only after the current request completes or
fails. The live-session variant of src/components/GestureCamera.tsx has
no such guard; see the counterexample below. -/
theorem gesture_loop_single_inflight (a : Bool) (evs : List LoopEvent)
    (s : LoopState) (h : runLoop (initLoopState a) evs = some s) :
    s.inFlight ≤ 1 ∧
    (s.phase = LoopPhase.awaitingResponse →
      s.inFlight = 1 ∧ s.processing = true ∧ s.timerArmed = false) := by
  have hInit : LoopInv (initLoopState a) := by
    constructor <;> simp [initLoopState, LoopInv]
  have hInv := runLoop_preserves_inv hInit h
  obtain ⟨hIdle, hAwait⟩ := hInv
  refine ⟨?_, hAwait⟩
  cases hp : s.phase with
  | idle => rw [hIdle hp]; omega
  | awaitingResponse => rw [(hAwait hp).1]

/-- Witness for C3: after the first invocation fires and issues its
request, exactly one request is in flight with the flag set and no
timeout armed. -/
theorem gesture_loop_single_inflight_witness :
    ({ phase := LoopPhase.awaitingResponse, timerArmed := false,
       processing := true, active := true, inFlight := 1 } :
      LoopState).inFlight ≤ 1 ∧
    (({ phase := LoopPhase.awaitingResponse, timerArmed := false,
        processing := true, active := true, inFlight := 1 } :
       LoopState).phase = LoopPhase.awaitingResponse →
      ({ phase := LoopPhase.awaitingResponse, timerArmed := false,
         processing := true, active := true, inFlight := 1 } :
        LoopState).inFlight = 1 ∧
      ({ phase := LoopPhase.awaitingResponse, timerArmed := false,
         processing := true, active := true, inFlight := 1 } :
        LoopState).processing = true ∧
      ({ phase := LoopPhase.awaitingResponse, timerArmed := false,
         processing := true, active := true, inFlight := 1 } :
        LoopState).timerArmed = false) :=
  gesture_loop_single_inflight true [LoopEvent.fire true] _ (by decide)

/-- JavaScript error value as inspected by the connect catch block: a
name and a message. -/
structure JsError where
  name : String
  message : String
deriving DecidableEq

/-- Errors surfaced by connect of BluetoothService variant A
(src/services/bluetoothService.ts lines 18-65), abstracted from the
literal message texts: the missing-API rejection thrown before the try
block, the permissions-policy rejection, the rewritten NotFoundError for
a cancelled device picker, and any other error rethrown as caught. -/
inductive ConnectError where
  | unsupported
  | policyDisallowed
  | noDeviceSelected
  | other (message : String)
deriving DecidableEq

/-- ASCII lower-casing of a character list, modelling toLowerCase(). -/
def toLowerChars (l : List Char) : List Char :=
  l.map Char.toLower

/-- Error classification of the connect catch block of variant A
(src/services/bluetoothService.ts lines 51-63): a SecurityError or a
message mentioning permissions policy becomes the policy error, a
NotFoundError becomes the no-device error, and anything else is rethrown
unchanged. -/
def classifyConnectError (e : JsError) : ConnectError :=
  if e.name = "SecurityError" ||
      containsSub ("permissions policy".data) (toLowerChars e.message.data)
  then ConnectError.policyDisallowed
  else if e.name = "NotFoundError" then ConnectError.noDeviceSelected
  else ConnectError.other e.message

/-- Environment of one connect call: whether navigator.bluetooth exists
and the outcome of each awaited Web Bluetooth step, injected by the
browser. Each field is consulted at most once per call. -/
structure ConnectEnv where
  hasBluetooth : Bool
  requestDevice : Except JsError String
  gattConnect : Except JsError Unit
  getPrimaryService : Except JsError Unit
  getCharacteristic : Except JsError Unit

/-- connect of BluetoothService variant A
(src/services/bluetoothService.ts lines 18-65): it throws when the Web
Bluetooth API is missing, performs the four steps in order stopping at
the first failure, classifies a caught failure through the catch block
and rethrows it, and on success caches the device and characteristic and
returns the device name. -/
def connectRun (env : ConnectEnv) : Except ConnectError (String × ServiceState) :=
  if !env.hasBluetooth then Except.error ConnectError.unsupported
  else
    match env.requestDevice with
    | Except.error e => Except.error (classifyConnectError e)
    | Except.ok name =>
      match env.gattConnect with
      | Except.error e => Except.error (classifyConnectError e)
      | Except.ok _ =>
        match env.getPrimaryService with
        | Except.error e => Except.error (classifyConnectError e)
        | Except.ok _ =>
          match env.getCharacteristic with
          | Except.error e => Except.error (classifyConnectError e)
          | Except.ok _ => Except.ok (name, ⟨some true, some ()⟩)

/-- UI-facing Bluetooth state snapshot of App, src/types.ts lines 4-8,
with the error field abstracted to the surfaced connect error. -/
structure BluetoothState where
  connected : Bool
  deviceName : Option String
  error : Option ConnectError

/-- Outcome handling of handleConnect in App (src/App.tsx lines 33-45):
success replaces the whole snapshot, failure keeps the previous fields
and records the error message; no retry is issued. -/
def applyConnectOutcome (prev : BluetoothState) :
    Except ConnectError String → BluetoothState
  | Except.ok name => ⟨true, some name, none⟩
  | Except.error e => { prev with error := some e }

/-- Observable outcome of one sendCommand call: how many writes were
attempted, whether the promise resolved normally, and whether the catch
block logged a failure. -/
structure SendOutcome where
  writeAttempts : Nat
  resolvedNormally : Bool
  errorLogged : Bool
deriving DecidableEq

/-- sendCommand with an injected write outcome, from
src/services/bluetoothService.ts lines 67-79 and 175-193: without a
cached characteristic it returns at once; with one it attempts at most
one write, and a write failure is caught and logged by the catch block
while the call still resolves normally. -/
def sendCommandRun (map : String → Option String) (hasCharacteristic : Bool)
    (cmd : String) (writeSucceeds : Bool) : SendOutcome :=
  if hasCharacteristic then
    match map cmd with
    | some _ =>
      if writeSucceeds then ⟨1, true, false⟩ else ⟨1, true, true⟩
    | none => ⟨0, true, false⟩
  else ⟨0, true, false⟩

/-- C7: every failure is caught where it arises and surfaced or logged,
and nothing is retried. sendCommand attempts at most one write and
resolves normally even when the write fails, logging the failure; a
missing Web Bluetooth API, a device-picker cancellation (NotFoundError),
a permissions-policy rejection (SecurityError), and a failure of the
GATT connection step, of the service lookup or of the characteristic
lookup all surface through connect as a single classified error, which
App records in its state snapshot without retrying; and the gesture loop treats a
failed inference call exactly like a completed one, re-arming the next
attempt instead of retrying. -/
theorem error_handling_flat :
    (∀ (map : String → Option String) (hasChar : Bool) (cmd : String)
        (ok : Bool),
      (sendCommandRun map hasChar cmd ok).writeAttempts ≤ 1 ∧
      (sendCommandRun map hasChar cmd ok).resolvedNormally = true) ∧
    (∀ (map : String → Option String) (hasChar : Bool) (cmd : String),
      (sendCommandRun map hasChar cmd false).writeAttempts = 1 →
      (sendCommandRun map hasChar cmd false).errorLogged = true) ∧
    (∀ env : ConnectEnv, env.hasBluetooth = false →
      connectRun env = Except.error ConnectError.unsupported) ∧
    (∀ (env : ConnectEnv) (e : JsError), env.hasBluetooth = true →
      env.requestDevice = Except.error e →
      connectRun env = Except.error (classifyConnectError e)) ∧
    (∀ (env : ConnectEnv) (e : JsError) (name : String),
      env.hasBluetooth = true → env.requestDevice = Except.ok name →
      env.gattConnect = Except.error e →
      connectRun env = Except.error (classifyConnectError e)) ∧
    (∀ (env : ConnectEnv) (e : JsError) (name : String),
      env.hasBluetooth = true → env.requestDevice = Except.ok name →
      env.gattConnect = Except.ok () →
      env.getPrimaryService = Except.error e →
      connectRun env = Except.error (classifyConnectError e)) ∧
    (∀ (env : ConnectEnv) (e : JsError) (name : String),
      env.hasBluetooth = true → env.requestDevice = Except.ok name →
      env.gattConnect = Except.ok () →
      env.getPrimaryService = Except.ok () →
      env.getCharacteristic = Except.error e →
      connectRun env = Except.error (classifyConnectError e)) ∧
    (∀ m : String, classifyConnectError ⟨"SecurityError", m⟩ =
      ConnectError.policyDisallowed) ∧
    (∀ m : String,
      containsSub ("permissions policy".data) (toLowerChars m.data) = false →
      classifyConnectError ⟨"NotFoundError", m⟩ =
        ConnectError.noDeviceSelected) ∧
    (∀ (prev : BluetoothState) (e : ConnectError),
      (applyConnectOutcome prev (Except.error e)).error = some e ∧
      (applyConnectOutcome prev (Except.error e)).connected = prev.connected) ∧
    (∀ s : LoopState,
      loopStep s (LoopEvent.complete true) =
        loopStep s (LoopEvent.complete false)) := by
  refine ⟨?_, ?_, ?_, ?_, ?_, ?_, ?_, ?_, ?_, ?_, ?_⟩
  · intro map hasChar cmd ok
    rw [sendCommandRun]
    cases hasChar with
    | false => simp
    | true =>
      cases map cmd with
      | none => simp
      | some w => cases ok <;> simp
  · intro map hasChar cmd h
    rw [sendCommandRun] at h ⊢
    cases hasChar with
    | false => simp at h
    | true =>
      cases hmap : map cmd with
      | none => rw [hmap] at h; simp at h
      | some w => simp
  · intro env h
    rw [connectRun, h]
    rfl
  · intro env e hbt hreq
    rw [connectRun, hbt, hreq]
    rfl
  · intro env e name hbt hreq hgatt
    rw [connectRun, hbt, hreq, hgatt]
    rfl
  · intro env e name hbt hreq hgatt hsvc
    rw [connectRun, hbt, hreq, hgatt, hsvc]
    rfl
  · intro env e name hbt hreq hgatt hsvc hchar
    rw [connectRun, hbt, hreq, hgatt, hsvc, hchar]
    rfl
  · intro m
    rw [classifyConnectError]
    simp
  · intro m h
    rw [classifyConnectError]
    simp [h]
  · intro prev e
    exact ⟨rfl, rfl⟩
  · intro s
    rfl

/-- Witness for C7: a failing write on a mapped token with a cached
characteristic is attempted once, logged, and the call resolves normally;
a cancelled device picker surfaces as the no-device error; a GATT
connection failure surfaces through connect as the classified error; a
failed inference completion steps the loop exactly as a successful one. -/
theorem error_handling_flat_witness :
    ((sendCommandRun mapCommandToStringB true "FORWARD" false).writeAttempts ≤ 1 ∧
     (sendCommandRun mapCommandToStringB true "FORWARD" false).resolvedNormally
       = true) ∧
    (sendCommandRun mapCommandToStringB true "FORWARD" false).errorLogged
      = true ∧
    connectRun ⟨true, Except.ok "BBC micro:bit",
        Except.error ⟨"NetworkError", "GATT operation failed."⟩,
        Except.ok (), Except.ok ()⟩ =
      Except.error
        (classifyConnectError ⟨"NetworkError", "GATT operation failed."⟩) ∧
    classifyConnectError ⟨"NotFoundError", "User cancelled the requestDevice chooser."⟩
      = ConnectError.noDeviceSelected ∧
    loopStep (initLoopState true) (LoopEvent.complete true) =
      loopStep (initLoopState true) (LoopEvent.complete false) :=
  ⟨error_handling_flat.1 mapCommandToStringB true "FORWARD" false,
   error_handling_flat.2.1 mapCommandToStringB true "FORWARD" (by decide),
   error_handling_flat.2.2.2.2.1 ⟨true, Except.ok "BBC micro:bit",
       Except.error ⟨"NetworkError", "GATT operation failed."⟩,
       Except.ok (), Except.ok ()⟩
     ⟨"NetworkError", "GATT operation failed."⟩ "BBC micro:bit" rfl rfl rfl,
   error_handling_flat.2.2.2.2.2.2.2.2.1
     "User cancelled the requestDevice chooser." (by decide),
   error_handling_flat.2.2.2.2.2.2.2.2.2.2 (initLoopState true)⟩

/-- State of the frame loop of the live-session GestureCamera variant
(src/components/GestureCamera.tsx lines 84-103): the number of captured
frames handed to the hosted model whose inference results have not yet
arrived through the onmessage callback. -/
structure LiveLoopState where
  inFlight : Nat
deriving DecidableEq

/-- Events of the live-session frame loop: a setInterval tick (with the
video and canvas refs ready or not) or the arrival of one inference
result through the onmessage callback. -/
inductive LiveLoopEvent where
  | tick (mediaReady : Bool)
  | result
deriving DecidableEq

/-- One step of the live-session frame loop of
src/components/GestureCamera.tsx lines 84-103: every interval tick whose
refs are ready draws the current video frame and hands it to
sendRealtimeInput through sessionPromise.then, consulting no in-flight
flag and awaiting no result before the next tick; a result event
consumes one outstanding request. -/
def liveLoopStep (s : LiveLoopState) : LiveLoopEvent → Option LiveLoopState
  | LiveLoopEvent.tick mediaReady =>
    if mediaReady then some ⟨s.inFlight + 1⟩ else some s
  | LiveLoopEvent.result =>
    if s.inFlight > 0 then some ⟨s.inFlight - 1⟩ else none

/-- Executes a sequence of live-loop events from a state. -/
def runLiveLoop : LiveLoopState → List LiveLoopEvent → Option LiveLoopState
  | s, [] => some s
  | s, e :: es =>
    match liveLoopStep s e with
    | some s2 => runLiveLoop s2 es
    | none => none

/-- Counterexample to C3 as stated: in the live-session GestureCamera
variant of src/components/GestureCamera.tsx lines 84-103, the variant
App.tsx imports, the first interval tick leaves one inference request
outstanding, and the second tick issues another before any result has
arrived, so two requests are in flight at once: that loop has no
request-in-flight flag and never waits for a result or failure before
the next frame is sent. -/
theorem live_loop_issues_second_request :
    runLiveLoop ⟨0⟩ [LiveLoopEvent.tick true] = some ⟨1⟩ ∧
    runLiveLoop ⟨0⟩ [LiveLoopEvent.tick true, LiveLoopEvent.tick true] =
      some ⟨2⟩ :=
  ⟨rfl, rfl⟩
